import Mathlib

/-!
Shallow embedding of `uplink/converters/marshmallow_.py`: the
`MarshmallowConverter` factory and its two converter variants.

Python effects are modelled with `Except PyExn`: a function that may raise
returns `Except.error e` for the raised exception and `Except.ok v` for a
normal return.  Python values flowing through the adapter are an abstract
type `V`.
-/

set_option autoImplicit false

/-- Python exceptions, distinguished only as finely as the code does:
`_make_converter` catches exactly `ValueError`, `__init__` raises
`ImportError`, and everything else is opaque (carried as a class name and
message). -/
inductive PyExn where
  | valueError (msg : String)
  | importError (msg : String)
  | otherError (cls msg : String)
  deriving DecidableEq, Repr

/-- `true` exactly on the `ValueError` constructor: the one exception class
the `except ValueError:` clause of `_make_converter` catches. -/
def PyExn.isValueError : PyExn → Bool
  | .valueError _ => true
  | _ => false

/-- The object returned by marshmallow 2.x `Schema.load` / `Schema.dump`:
a pair exposing `.data` (the primary output the adapter reads) and
`.errors`.  Both components are opaque Python values. -/
structure MarshalResult (V : Type) where
  data : V
  errors : V
  deriving DecidableEq, Repr

/-- A marshmallow schema instance, reduced to the surface the adapter
uses: `load(raw)` and `dump(value)`, each of which may raise. -/
structure Schema (V : Type) where
  load : V → Except PyExn (MarshalResult V)
  dump : V → Except PyExn (MarshalResult V)

/-- The response object handed to `ResponseBodyConverter.convert`: it must
expose a `json()` accessor returning the JSON-decoded body, which may
raise. -/
structure Response (V : Type) where
  json : Except PyExn V

/-- A response whose `json()` accessor succeeds with `raw` — the
`response_with_json` / `response_wrapping` collaborator of the round-trip
property. -/
def mkJsonResponse {V : Type} (raw : V) : Response V :=
  ⟨Except.ok raw⟩

/-- The `type_` argument of the factory methods, classified the way
`_get_schema` tests it, in order:

* `schemaClass instantiate`: `inspect.isclass(type_)` holds and `type_` is
  a subclass of `marshmallow.Schema`; `instantiate` is the outcome of the
  zero-argument call `type_()` (a schema instance, or a raised exception).
* `schemaInstance s`: `type_` is an instance of `marshmallow.Schema`.
* `other obj`: anything else (a primitive, an unrelated class or
  instance, ...). -/
inductive PyType (V : Type) where
  | schemaClass (instantiate : Except PyExn (Schema V))
  | schemaInstance (s : Schema V)
  | other (obj : V)

/-- `true` on the two shapes `_get_schema` accepts. -/
def PyType.isSchemaLike {V : Type} : PyType V → Bool
  | .other _ => false
  | _ => true

namespace MarshmallowConverter

/-- `MarshmallowConverter.__init__`: raises `ImportError` when the
class-level `marshmallow` attribute is `None` (the `import marshmallow`
at class-body scope failed), otherwise returns normally.  Availability is
modelled as `Option Unit`: `none` means the library is absent. -/
def init (marshmallow : Option Unit) : Except PyExn Unit :=
  match marshmallow with
  | none => Except.error (PyExn.importError "No module named 'marshmallow'")
  | some _ => Except.ok ()

/-- `MarshmallowConverter.ResponseBodyConverter`: holds one schema
instance. -/
structure ResponseBodyConverter (V : Type) where
  _schema : Schema V

/-- `ResponseBodyConverter.convert`:
`return self._schema.load(response.json()).data`. -/
def ResponseBodyConverter.convert {V : Type} (self : ResponseBodyConverter V)
    (response : Response V) : Except PyExn V := do
  let raw ← response.json
  let result ← self._schema.load raw
  pure result.data

/-- `MarshmallowConverter.RequestBodyConverter`: holds one schema
instance. -/
structure RequestBodyConverter (V : Type) where
  _schema : Schema V

/-- `RequestBodyConverter.convert`:
`return self._schema.dump(value).data`. -/
def RequestBodyConverter.convert {V : Type} (self : RequestBodyConverter V)
    (value : V) : Except PyExn V := do
  let result ← self._schema.dump value
  pure result.data

/-- `MarshmallowConverter._get_schema`: if `type_` is a class subclassing
`marshmallow.Schema`, return `type_()`; if it is a `marshmallow.Schema`
instance, return it; otherwise raise
`ValueError("Expected marshmallow.Scheme subclass or instance.")`. -/
def _get_schema {V : Type} (type_ : PyType V) : Except PyExn (Schema V) :=
  match type_ with
  | .schemaClass instantiate => instantiate
  | .schemaInstance s => Except.ok s
  | .other _ =>
      Except.error (PyExn.valueError "Expected marshmallow.Scheme subclass or instance.")

/-- `MarshmallowConverter._make_converter`: try `_get_schema(type_)`;
on `ValueError` return `None`; on success wrap the schema with
`converter_cls`; any other exception propagates. -/
def _make_converter {V C : Type} (converter_cls : Schema V → C) (type_ : PyType V) :
    Except PyExn (Option C) :=
  match _get_schema type_ with
  | Except.error (PyExn.valueError _) => Except.ok none
  | Except.error e => Except.error e
  | Except.ok schema => Except.ok (some (converter_cls schema))

/-- `MarshmallowConverter.make_request_body_converter(self, type_, *args,
**kwargs)`: delegates to `_make_converter` with the
`RequestBodyConverter` class, ignoring the extra arguments. -/
def make_request_body_converter {V : Type} (type_ : PyType V)
    (args : List V) (kwargs : List (String × V)) :
    Except PyExn (Option (RequestBodyConverter V)) :=
  _make_converter RequestBodyConverter.mk type_

/-- `MarshmallowConverter.make_response_body_converter(self, type_, *args,
**kwargs)`: delegates to `_make_converter` with the
`ResponseBodyConverter` class, ignoring the extra arguments. -/
def make_response_body_converter {V : Type} (type_ : PyType V)
    (args : List V) (kwargs : List (String × V)) :
    Except PyExn (Option (ResponseBodyConverter V)) :=
  _make_converter ResponseBodyConverter.mk type_

/-- `MarshmallowConverter.make_string_converter(self, type_, *args,
**kwargs)`: `return None`. -/
def make_string_converter {V : Type} (type_ : PyType V)
    (args : List V) (kwargs : List (String × V)) : Option Unit :=
  none

end MarshmallowConverter

/-- A concrete schema over `Nat` used to exercise the theorems on closed
inputs: `dump` shifts up by one, `load` shifts back down, and neither
raises. -/
def natSchema : Schema Nat where
  load := fun raw => Except.ok ⟨raw - 1, 0⟩
  dump := fun value => Except.ok ⟨value + 1, 0⟩

open MarshmallowConverter

/-- Auxiliary: `_make_converter` returns `None` exactly when `_get_schema`
raises `ValueError`. -/
theorem make_converter_none_iff {V C : Type} (converter_cls : Schema V → C)
    (type_ : PyType V) :
    _make_converter converter_cls type_ = Except.ok none ↔
      ∃ msg, _get_schema type_ = Except.error (PyExn.valueError msg) := by
  unfold _make_converter
  cases hE : _get_schema type_ with
  | ok s => simp
  | error e => cases e <;> simp

/-- Auxiliary: on successful resolution, `_make_converter` wraps the
resolved schema with the given converter class. -/
theorem make_converter_ok {V C : Type} (converter_cls : Schema V → C)
    (type_ : PyType V) (s : Schema V) (h : _get_schema type_ = Except.ok s) :
    _make_converter converter_cls type_ = Except.ok (some (converter_cls s)) := by
  unfold _make_converter
  rw [h]

/-- Claim C1: `_get_schema` is a three-way case split: a schema subclass is
instantiated with no arguments and the result returned, a schema instance
is returned unchanged, and anything else raises the resolution
`ValueError`. -/
theorem get_schema_three_way_split {V : Type} (type_ : PyType V) :
    (∀ instantiate, type_ = PyType.schemaClass instantiate →
      _get_schema type_ = instantiate) ∧
    (∀ s, type_ = PyType.schemaInstance s → _get_schema type_ = Except.ok s) ∧
    (type_.isSchemaLike = false →
      _get_schema type_ =
        Except.error (PyExn.valueError "Expected marshmallow.Scheme subclass or instance.")) := by
  refine ⟨?_, ?_, ?_⟩ <;> cases type_ <;>
    simp_all [_get_schema, PyType.isSchemaLike]

/-- Witness for C1 at concrete inputs: an instance resolves to itself, and
a non-schema value raises the resolution error. -/
theorem get_schema_three_way_split_witness :
    _get_schema (PyType.schemaInstance natSchema) = Except.ok natSchema ∧
    _get_schema (V := Nat) (PyType.other 0) =
      Except.error (PyExn.valueError "Expected marshmallow.Scheme subclass or instance.") :=
  ⟨(get_schema_three_way_split (PyType.schemaInstance natSchema)).2.1 natSchema rfl,
   (get_schema_three_way_split (V := Nat) (PyType.other 0)).2.2 rfl⟩

/-- Claim C2: `make_request_body_converter` returns `None` exactly when
schema resolution fails (with the resolution `ValueError`), and otherwise
returns a `RequestBodyConverter` wrapping the resolved schema;
`make_response_body_converter` behaves identically with a
`ResponseBodyConverter`; in particular both return `None` on every
non-schema input. -/
theorem make_body_converters_soft_decline {V : Type} (type_ : PyType V)
    (args : List V) (kwargs : List (String × V)) :
    (make_request_body_converter type_ args kwargs = Except.ok none ↔
      ∃ msg, _get_schema type_ = Except.error (PyExn.valueError msg)) ∧
    (∀ s, _get_schema type_ = Except.ok s →
      make_request_body_converter type_ args kwargs =
        Except.ok (some (RequestBodyConverter.mk s))) ∧
    (make_response_body_converter type_ args kwargs = Except.ok none ↔
      ∃ msg, _get_schema type_ = Except.error (PyExn.valueError msg)) ∧
    (∀ s, _get_schema type_ = Except.ok s →
      make_response_body_converter type_ args kwargs =
        Except.ok (some (ResponseBodyConverter.mk s))) ∧
    (∀ obj : V, make_request_body_converter (PyType.other obj) args kwargs = Except.ok none ∧
      make_response_body_converter (PyType.other obj) args kwargs = Except.ok none) :=
  ⟨make_converter_none_iff _ type_,
   fun s h => make_converter_ok _ type_ s h,
   make_converter_none_iff _ type_,
   fun s h => make_converter_ok _ type_ s h,
   fun obj =>
    ⟨(make_converter_none_iff _ (PyType.other obj)).mpr ⟨_, rfl⟩,
     (make_converter_none_iff _ (PyType.other obj)).mpr ⟨_, rfl⟩⟩⟩

/-- Witness for C2 at concrete inputs: a schema instance yields a wrapped
converter, and a plain number yields `None`. -/
theorem make_body_converters_soft_decline_witness :
    make_request_body_converter (PyType.schemaInstance natSchema) [] [] =
      Except.ok (some (RequestBodyConverter.mk natSchema)) ∧
    make_request_body_converter (V := Nat) (PyType.other 7) [] [] = Except.ok none :=
  ⟨(make_body_converters_soft_decline (PyType.schemaInstance natSchema) [] []).2.1
      natSchema rfl,
   ((make_body_converters_soft_decline (V := Nat) (PyType.other 7) [] []).2.2.2.2 7).1⟩

/-- Auxiliary: bind on a successful `Except` computation reduces. -/
theorem except_bind_ok {E A B : Type} (a : A) (f : A → Except E B) :
    (Except.ok a >>= f) = f a := rfl

/-- Auxiliary: bind on a raised `Except` computation propagates the
exception. -/
theorem except_bind_error {E A B : Type} (e : E) (f : A → Except E B) :
    ((Except.error e : Except E A) >>= f) = Except.error e := rfl

/-- Auxiliary: map on a successful `Except` computation reduces. -/
theorem except_map_ok {E A B : Type} (f : A → B) (a : A) :
    (f <$> (Except.ok a : Except E A)) = Except.ok (f a) := rfl

/-- Auxiliary: map on a raised `Except` computation propagates the
exception. -/
theorem except_map_error {E A B : Type} (f : A → B) (e : E) :
    (f <$> (Except.error e : Except E A)) = Except.error e := rfl

/-- Claim C3: `RequestBodyConverter.convert` returns exactly the `.data`
component of the schema's `dump` output, and any exception raised by
`dump` propagates unmodified. -/
theorem request_convert_is_dump_data {V : Type} (s : Schema V) (value : V) :
    (∀ r, s.dump value = Except.ok r →
      (RequestBodyConverter.mk s).convert value = Except.ok r.data) ∧
    (∀ e, s.dump value = Except.error e →
      (RequestBodyConverter.mk s).convert value = Except.error e) := by
  constructor <;> intro x h <;> simp [RequestBodyConverter.convert, h]

/-- Witness for C3: on the concrete `natSchema`, dumping `5` yields data
`6`. -/
theorem request_convert_is_dump_data_witness :
    (RequestBodyConverter.mk natSchema).convert 5 = Except.ok 6 :=
  (request_convert_is_dump_data natSchema 5).1 ⟨6, 0⟩ rfl

/-- Claim C4: `ResponseBodyConverter.convert` feeds the JSON-decoded body
to the schema's `load` and returns its `.data` component; any exception
raised by the body accessor or by `load` propagates unmodified. -/
theorem response_convert_is_load_data {V : Type} (s : Schema V)
    (response : Response V) :
    (∀ raw r, response.json = Except.ok raw → s.load raw = Except.ok r →
      (ResponseBodyConverter.mk s).convert response = Except.ok r.data) ∧
    (∀ e, response.json = Except.error e →
      (ResponseBodyConverter.mk s).convert response = Except.error e) ∧
    (∀ raw e, response.json = Except.ok raw → s.load raw = Except.error e →
      (ResponseBodyConverter.mk s).convert response = Except.error e) := by
  refine ⟨?_, ?_, ?_⟩
  · intro raw r hj hl
    simp [ResponseBodyConverter.convert, hj, hl, except_bind_ok, except_map_ok]
  · intro e hj
    simp [ResponseBodyConverter.convert, hj, except_bind_error]
  · intro raw e hj hl
    simp [ResponseBodyConverter.convert, hj, hl, except_bind_ok, except_map_error]

/-- Witness for C4: on the concrete `natSchema`, loading the body `6`
yields data `5`. -/
theorem response_convert_is_load_data_witness :
    (ResponseBodyConverter.mk natSchema).convert (mkJsonResponse 6) = Except.ok 5 :=
  (response_convert_is_load_data natSchema (mkJsonResponse 6)).1 6 ⟨5, 0⟩ rfl rfl

/-- Claim C5: round-trip — if `RequestBodyConverter(s).convert obj`
serializes `obj` to `raw`, and the schema's `load` is a left inverse of
its `dump` there (loading `raw` gives back `obj`), then
`ResponseBodyConverter(s).convert` on a response wrapping `raw`
reconstructs `obj`. -/
theorem round_trip {V : Type} (s : Schema V) (obj raw : V)
    (hdump : (RequestBodyConverter.mk s).convert obj = Except.ok raw)
    (hinv : (s.load raw).map MarshalResult.data = Except.ok obj) :
    (ResponseBodyConverter.mk s).convert (mkJsonResponse raw) = Except.ok obj := by
  cases hl : s.load raw with
  | ok r =>
    rw [hl] at hinv
    simp only [Except.map, Except.ok.injEq] at hinv
    simp [ResponseBodyConverter.convert, mkJsonResponse, hl, except_bind_ok,
      except_map_ok, hinv]
  | error e => rw [hl] at hinv; simp [Except.map] at hinv

/-- Witness for C5: with `natSchema`, `5` dumps to `6` and loads back to
`5`. -/
theorem round_trip_witness :
    (ResponseBodyConverter.mk natSchema).convert (mkJsonResponse 6) = Except.ok 5 ∧
    (RequestBodyConverter.mk natSchema).convert 5 = Except.ok 6 :=
  ⟨round_trip natSchema 5 6 rfl rfl, rfl⟩

/-- Claim C6: constructing the factory raises the `ImportError` exactly
when the marshmallow library is unavailable, and succeeds otherwise; the
per-call factory methods perform no availability check — the only
exception a `make_*` method can raise is one raised by the zero-argument
instantiation of a schema subclass passed to it. -/
theorem init_availability_check :
    (∀ m : Option Unit,
      init m = Except.error (PyExn.importError "No module named 'marshmallow'") ↔
        m = none) ∧
    (∀ u : Unit, init (some u) = Except.ok ()) ∧
    (∀ (V : Type) (type_ : PyType V) (args : List V) (kwargs : List (String × V))
        (e : PyExn),
      make_request_body_converter type_ args kwargs = Except.error e →
      type_ = PyType.schemaClass (Except.error e)) ∧
    (∀ (V : Type) (type_ : PyType V) (args : List V) (kwargs : List (String × V))
        (e : PyExn),
      make_response_body_converter type_ args kwargs = Except.error e →
      type_ = PyType.schemaClass (Except.error e)) := by
  refine ⟨?_, ?_, ?_, ?_⟩
  · intro m; cases m <;> simp [init]
  · intro u; rfl
  · intro V type_ args kwargs e h
    cases type_ with
    | schemaClass instantiate =>
      cases instantiate with
      | ok s => simp [make_request_body_converter, _make_converter, _get_schema] at h
      | error f =>
        cases f <;>
          simp_all [make_request_body_converter, _make_converter, _get_schema]
    | schemaInstance s =>
      simp [make_request_body_converter, _make_converter, _get_schema] at h
    | other obj =>
      simp [make_request_body_converter, _make_converter, _get_schema] at h
  · intro V type_ args kwargs e h
    cases type_ with
    | schemaClass instantiate =>
      cases instantiate with
      | ok s => simp [make_response_body_converter, _make_converter, _get_schema] at h
      | error f =>
        cases f <;>
          simp_all [make_response_body_converter, _make_converter, _get_schema]
    | schemaInstance s =>
      simp [make_response_body_converter, _make_converter, _get_schema] at h
    | other obj =>
      simp [make_response_body_converter, _make_converter, _get_schema] at h

/-- Witness for C6 at a concrete input: a propagated instantiation
exception is traced back to the schema-subclass argument that raised
it. -/
theorem init_availability_check_witness :
    PyType.schemaClass (V := Nat)
        (Except.error (PyExn.otherError "TypeError" "boom")) =
      PyType.schemaClass (Except.error (PyExn.otherError "TypeError" "boom")) :=
  init_availability_check.2.2.1 Nat
    (PyType.schemaClass (Except.error (PyExn.otherError "TypeError" "boom"))) [] []
    (PyExn.otherError "TypeError" "boom") rfl

/-- Claim C7: resolving a schema subclass whose zero-argument
instantiation yields `s` and resolving the instance `s` itself give the
same schema, the factory methods give equal converters on the two inputs,
and those converters produce the same `convert` result on every input. -/
theorem class_instance_equivalence {V : Type} (s : Schema V) :
    _get_schema (PyType.schemaClass (Except.ok s)) =
      _get_schema (PyType.schemaInstance s) ∧
    (∀ (args : List V) (kwargs : List (String × V)),
      make_request_body_converter (PyType.schemaClass (Except.ok s)) args kwargs =
        make_request_body_converter (PyType.schemaInstance s) args kwargs ∧
      make_response_body_converter (PyType.schemaClass (Except.ok s)) args kwargs =
        make_response_body_converter (PyType.schemaInstance s) args kwargs) ∧
    (∀ (args : List V) (kwargs : List (String × V)) (c c' : RequestBodyConverter V)
        (value : V),
      make_request_body_converter (PyType.schemaClass (Except.ok s)) args kwargs =
        Except.ok (some c) →
      make_request_body_converter (PyType.schemaInstance s) args kwargs =
        Except.ok (some c') →
      c.convert value = c'.convert value) ∧
    (∀ (args : List V) (kwargs : List (String × V)) (c c' : ResponseBodyConverter V)
        (response : Response V),
      make_response_body_converter (PyType.schemaClass (Except.ok s)) args kwargs =
        Except.ok (some c) →
      make_response_body_converter (PyType.schemaInstance s) args kwargs =
        Except.ok (some c') →
      c.convert response = c'.convert response) := by
  refine ⟨rfl, fun args kwargs => ⟨rfl, rfl⟩, ?_, ?_⟩
  · intro args kwargs c c' value h1 h2
    have h12 : (Except.ok (some c) : Except PyExn (Option (RequestBodyConverter V))) =
        Except.ok (some c') := by rw [← h1, ← h2]; rfl
    simp only [Except.ok.injEq, Option.some.injEq] at h12
    rw [h12]
  · intro args kwargs c c' response h1 h2
    have h12 : (Except.ok (some c) : Except PyExn (Option (ResponseBodyConverter V))) =
        Except.ok (some c') := by rw [← h1, ← h2]; rfl
    simp only [Except.ok.injEq, Option.some.injEq] at h12
    rw [h12]

/-- Witness for C7 at concrete inputs: the two converters built from the
class form and the instance form of `natSchema` agree at `5`. -/
theorem class_instance_equivalence_witness :
    (RequestBodyConverter.mk natSchema).convert 5 =
      (RequestBodyConverter.mk natSchema).convert 5 :=
  (class_instance_equivalence natSchema).2.2.1 [] []
    (RequestBodyConverter.mk natSchema) (RequestBodyConverter.mk natSchema) 5 rfl rfl

/-- Claim C8: invariant — a converter is only produced after schema
resolution succeeds, and the schema it holds is exactly the resolved
schema (by its type, always a `Schema`). -/
theorem converter_wraps_resolved_schema {V : Type} (type_ : PyType V)
    (args : List V) (kwargs : List (String × V)) :
    (∀ c : RequestBodyConverter V,
      make_request_body_converter type_ args kwargs = Except.ok (some c) →
      _get_schema type_ = Except.ok c._schema) ∧
    (∀ c : ResponseBodyConverter V,
      make_response_body_converter type_ args kwargs = Except.ok (some c) →
      _get_schema type_ = Except.ok c._schema) := by
  constructor
  · intro c h
    unfold make_request_body_converter _make_converter at h
    cases hE : _get_schema type_ with
    | ok s =>
      rw [hE] at h
      simp only [Except.ok.injEq, Option.some.injEq] at h
      rw [← h]
    | error e => rw [hE] at h; cases e <;> simp at h
  · intro c h
    unfold make_response_body_converter _make_converter at h
    cases hE : _get_schema type_ with
    | ok s =>
      rw [hE] at h
      simp only [Except.ok.injEq, Option.some.injEq] at h
      rw [← h]
    | error e => rw [hE] at h; cases e <;> simp at h

/-- Witness for C8 at a concrete input: the converter built from the
`natSchema` instance holds exactly the schema that resolution returned. -/
theorem converter_wraps_resolved_schema_witness :
    _get_schema (PyType.schemaInstance natSchema) =
      Except.ok (RequestBodyConverter.mk natSchema)._schema :=
  (converter_wraps_resolved_schema (PyType.schemaInstance natSchema) [] []).1
    (RequestBodyConverter.mk natSchema) rfl

/-- Claim C9: `make_string_converter` returns `None` for every type and
any extra positional or keyword arguments. -/
theorem make_string_converter_always_none {V : Type} (type_ : PyType V)
    (args : List V) (kwargs : List (String × V)) :
    make_string_converter type_ args kwargs = none :=
  rfl

/-- Claim C10: the soft-decline path catches only `ValueError` — when the
zero-argument instantiation of a schema subclass raises any other
exception, both `make_*` body methods propagate it instead of returning
`None`. -/
theorem non_valueerror_instantiation_propagates {V : Type} (e : PyExn)
    (args : List V) (kwargs : List (String × V)) (h : e.isValueError = false) :
    make_request_body_converter (PyType.schemaClass (Except.error e)) args kwargs =
      Except.error e ∧
    make_response_body_converter (PyType.schemaClass (Except.error e)) args kwargs =
      Except.error e := by
  cases e with
  | valueError msg => simp [PyExn.isValueError] at h
  | importError msg => exact ⟨rfl, rfl⟩
  | otherError cls msg => exact ⟨rfl, rfl⟩

/-- Witness for C10 at a concrete input: a `TypeError` raised while
instantiating the schema subclass escapes both factory methods. -/
theorem non_valueerror_instantiation_propagates_witness :
    make_request_body_converter (V := Nat)
        (PyType.schemaClass
          (Except.error (PyExn.otherError "TypeError" "missing argument"))) [] [] =
      Except.error (PyExn.otherError "TypeError" "missing argument") ∧
    make_response_body_converter (V := Nat)
        (PyType.schemaClass
          (Except.error (PyExn.otherError "TypeError" "missing argument"))) [] [] =
      Except.error (PyExn.otherError "TypeError" "missing argument") :=
  non_valueerror_instantiation_propagates
    (PyExn.otherError "TypeError" "missing argument") [] [] rfl
